import Mathlib

/-!
Verification development for the ORM row-loading module
(`lib/sqlalchemy/orm/loading.py`).

The module converts database rows into tracked, identity-deduplicated
objects.  We shallowly embed its data model and operations:

* column values are `Option Int` (with `none` for SQL NULL),
* a row is a list of values indexed by column position,
* an identity key is a pair of an entity-class id and the list of
  primary-key values,
* the identity map, the per-object states and the per-pass `partials`
  map are association lists inside an explicit `LoadState` that is
  threaded through every operation,
* external notification hooks (`load` / `refresh` event dispatch) and
  the opaque commit operations of the state/dict abstraction are
  recorded in an event log,
* fallible code returns `Except`.

Populator callables contributed by mapper properties are opaque in the
source (they receive `(state, dict_, row)` and write attributes); they
are embedded as opaque functions acting on the attribute view of an
object (its dict, its lazy-callable markers and its modified flag).
-/

set_option autoImplicit false

namespace Loading

/-- A nullable column value; `none` is SQL NULL. -/
abbrev Val := Option Int

/-- A row, indexable by column position; absent positions read as NULL. -/
abbrev Row := List Val

/-- Read a column of a row (`row[column]`). -/
def rowGet (r : Row) (c : Nat) : Val := r.getD c none

/-- Tracked objects are identified by a numeric id allocated by the store. -/
abbrev ObjId := Nat

/-- An identity key: `(identity_class, tuple(row[column] for column in pk_cols))`. -/
abbrev IdentKey := Nat × List Val

/-- Set a key in an association list, replacing an existing binding
(Python dict assignment). -/
def setAssoc {α β : Type} [DecidableEq α] : List (α × β) → α → β → List (α × β)
  | [], k, v => [(k, v)]
  | (k', v') :: rest, k, v =>
    if k' = k then (k, v) :: rest else (k', v') :: setAssoc rest k v

/-- Read a dict of attribute values; a missing attribute reads as NULL. -/
def dictGet (d : List (String × Val)) (k : String) : Val := (d.lookup k).getD none

/-- Write one attribute of a dict (`dict_[key] = value`). -/
def dictSet (d : List (String × Val)) (k : String) (v : Val) : List (String × Val) :=
  setAssoc d k v

/-- Remove one attribute of a dict (`dict_.pop(key, None)`). -/
def dictPop (d : List (String × Val)) (k : String) : List (String × Val) :=
  d.filter (fun p => p.1 ≠ k)

/-- Add a key to a set of keys (dict-like: no duplicates). -/
def keyInsert (ks : List String) (k : String) : List String :=
  if k ∈ ks then ks else ks ++ [k]

/-- Per-object tracked state together with its attribute store `dict_`. -/
structure ObjState where
  key : Option IdentKey := none
  runid : Option Nat := none
  sessionId : Option Nat := none
  modified : Bool := false
  unloaded : List String := []
  loadOptions : List String := []
  loadPath : Option Nat := none
  callables : List String := []
  dict : List (String × Val) := []
  deriving Repr, DecidableEq, Inhabited

/-- Observable calls into the state/dict abstraction and the event
dispatch system, recorded in order. -/
inductive Event where
  | loadEvt (o : ObjId)
  | refreshEvt (o : ObjId) (props : Option (List String))
  | commitKeys (o : ObjId) (keys : List String)
  | commitAll (o : ObjId)
  deriving Repr, DecidableEq

/-- The mutable world a row processor acts on: the session identity
map, the tracked states, the per-pass `partials` map of the load
context, a fresh-id counter and the event log. -/
structure LoadState where
  imap : List (IdentKey × ObjId) := []
  objs : List (ObjId × ObjState) := []
  nextId : ObjId := 0
  partials : List (ObjId × List String) := []
  events : List Event := []
  deriving Repr, DecidableEq, Inhabited

/-- Append an observable event. -/
def logEvt (s : LoadState) (e : Event) : LoadState := { s with events := s.events ++ [e] }

/-- Store an object state under its id. -/
def setObj (s : LoadState) (oid : ObjId) (st : ObjState) : LoadState :=
  { s with objs := setAssoc s.objs oid st }

/-- Read an object state by its id. -/
def getObj (s : LoadState) (oid : ObjId) : ObjState := (s.objs.lookup oid).getD default

/-- The view of an object a populator callable may write through:
its attribute dict, its lazy-callable markers and its modified flag. -/
structure AttrView where
  dict : List (String × Val)
  callables : List String
  modified : Bool
  deriving Repr, DecidableEq

/-- An opaque populator callable (`populator(state, dict_, row)`). -/
abbrev Populator := Row → AttrView → AttrView

/-- Apply a populator callable to an object state. -/
def applyPop (p : Populator) (row : Row) (st : ObjState) : ObjState :=
  let v := p row { dict := st.dict, callables := st.callables, modified := st.modified }
  { st with dict := v.dict, callables := v.callables, modified := v.modified }

/-- The populator registry buckets built by the factory: `quick`
entries carry a column getter, `expire` entries carry the
`set_callable` flag, the remaining buckets carry opaque callables. -/
structure Populators where
  quick : List (String × (Row → Val)) := []
  expire : List (String × Bool) := []
  new : List (String × Populator) := []
  delayed : List (String × Populator) := []
  existing : List (String × Populator) := []
  eager : List (String × Populator) := []

/-- Errors surfaced by this module. -/
inductive LoadErr where
  | staleData (o : ObjId) (stored : Val) (rowVal : Val)
  | assertionError (discriminator : Int)
  | noResultFound
  | multipleResultsFound
  | detachedInstance
  | invalidRequest
  | objectDeleted (o : ObjId)
  deriving Repr, DecidableEq

/-- The type of a per-row processor (`_instance`): a row plus the
current world produce either an error or an optional object and the
new world. -/
abbrev SubProc := Row → LoadState → Except LoadErr (Option ObjId × LoadState)

/-- The polymorphic dispatcher built by `_polymorphic_switch`: the
(adapted) discriminator column, and for each discriminator value
either `none` (the discriminator maps to the base mapper itself, so
`configure_subclass_mapper` yields `None` and the dispatcher returns
the decline sentinel `False`) or the row processor built for the
subclass mapper.  The recursive construction of the subclass
processor by `instance_processor` is carried as an opaque function. -/
structure PolyCfg where
  col : Nat
  subMap : List (Int × Option SubProc)

/-- The build-time constants snapshotted by `instance_processor` and
closed over by `_instance`. -/
structure ProcCfg where
  pkCols : List Nat
  versionIdCol : Option Nat
  versionAttrKey : String
  identityClass : Nat
  pops : Populators
  populateExisting : Bool
  loadEvt : Bool
  refreshEvt : Bool
  sessionId : Nat
  versionCheck : Bool
  runid : Nat
  allowPartialPks : Bool
  onlyLoadProps : Option (List String)
  refreshState : Option ObjId
  propagateOptions : List String
  loadPath : Nat
  polySwitch : Option PolyCfg

/-- Python truthiness of the `only_load_props` argument (a `None` or
an empty collection is falsy). -/
def truthyProps : Option (List String) → Bool
  | none => false
  | some l => !l.isEmpty

/-- The primary-key null test chosen at build time: with
`allow_partial_pks` the test is `_none_set.issuperset` (all values
NULL disqualify), otherwise `_none_set.intersection` (any NULL value
disqualifies). -/
def is_not_primary_key (allowPartialPks : Bool) (vals : List Val) : Bool :=
  if allowPartialPks then vals.all (fun v => v = none)
  else vals.any (fun v => v = none)

/-- The identity key computed from a row
(`(identity_class, tuple(row[column] for column in pk_cols))`). -/
def rowIdentity (cfg : ProcCfg) (row : Row) : IdentKey :=
  (cfg.identityClass, cfg.pkCols.map (fun c => rowGet row c))

/-- The version-check condition of `_instance`: version checking
enabled, not currently loading, a version column configured and the
stored version differing from the row's version column value. -/
def versionFails (cfg : ProcCfg) (st : ObjState) (row : Row) (currentload : Bool) : Bool :=
  cfg.versionCheck && !currentload &&
    match cfg.versionIdCol with
    | none => false
    | some vc => dictGet st.dict cfg.versionAttrKey != rowGet row vc

/-- The row's value of the (adapted) version column. -/
def rowVersion (cfg : ProcCfg) (row : Row) : Val :=
  match cfg.versionIdCol with
  | none => none
  | some vc => rowGet row vc

/-- One `quick`-bucket application: `dict_[key] = getter(row)`. -/
def quickStep (row : Row) (t : ObjState) (kv : String × (Row → Val)) : ObjState :=
  { t with dict := dictSet t.dict kv.1 (kv.2 row) }

/-- One `expire`-bucket application under requested repopulation:
clear the attribute, and mark the lazy callable when configured. -/
def expireStepRepop (t : ObjState) (kv : String × Bool) : ObjState :=
  let t2 := { t with dict := dictPop t.dict kv.1 }
  if kv.2 then { t2 with callables := keyInsert t2.callables kv.1 } else t2

/-- One `expire`-bucket application without repopulation: only mark
the lazy callable when configured. -/
def expireStep (t : ObjState) (kv : String × Bool) : ObjState :=
  if kv.2 then { t with callables := keyInsert t.callables kv.1 } else t

/-- One application of an opaque populator bucket entry. -/
def popStep (row : Row) (t : ObjState) (kv : String × Populator) : ObjState :=
  applyPop kv.2 row t

/-- Restrict a bucket application to the keys of a to-load set
(`if key not in to_load: continue`). -/
def onlyKeys {β : Type} (keys : List String) (f : ObjState → String × β → ObjState)
    (t : ObjState) (kv : String × β) : ObjState :=
  if kv.1 ∈ keys then f t kv else t

/-- One eager-populator application of the partial path: applied only
when the key is NOT among the unloaded attributes
(`if key not in unloaded: pop(state, dict_, row)`). -/
def eagerStep (unloaded : List String) (row : Row) (t : ObjState)
    (kv : String × Populator) : ObjState :=
  if kv.1 ∈ unloaded then t else applyPop kv.2 row t

/-- Modelled from the spec: full population of one object from one row.
The source imports this function from `sqlalchemy.cloader`, which is
not part of this source tree; the in-tree reference implementation
`_dont_populate_full` and spec section 4.3 describe it: on the first
sighting of the identity (`isnew`) stamp the run id, propagate load
options and load path, apply the `quick` getters, apply the `expire`
entries (also clearing the attribute when repopulating), then the
`new` and `delayed` populators; on a repeated sighting apply only the
`existing` populators. -/
def _populate_full (cfg : ProcCfg) (row : Row) (st0 : ObjState)
    (isnew loaded_instance populate_existing : Bool) : ObjState :=
  if isnew then
    let st := { st0 with runid := some cfg.runid }
    let st := if !cfg.propagateOptions.isEmpty then
        { st with loadOptions := cfg.propagateOptions } else st
    let st := if !st.loadOptions.isEmpty then { st with loadPath := some cfg.loadPath } else st
    let st := cfg.pops.quick.foldl (quickStep row) st
    let st :=
      if populate_existing then cfg.pops.expire.foldl expireStepRepop st
      else cfg.pops.expire.foldl expireStep st
    let st := cfg.pops.new.foldl (popStep row) st
    let _ := loaded_instance
    cfg.pops.delayed.foldl (popStep row) st
  else
    cfg.pops.existing.foldl (popStep row) st0

/-- Partial population of one object from one row (`_populate_partial`):
on a repeated sighting within the pass, re-apply the `existing`
populators filtered to the to-load set cached in `context.partials`;
on the first sighting within the pass, the to-load set is the
object's currently-unloaded attributes, it is cached in
`context.partials`, and the `quick`, `expire`, `new` and `delayed`
buckets are applied filtered to that set.  Returns the to-load set,
the populated object state and the updated `partials` map. -/
def populate_partial' (cfg : ProcCfg) (row : Row) (oid : ObjId) (st0 : ObjState)
    (isnew : Bool) (unloaded : List String) (partials : List (ObjId × List String)) :
    List String × ObjState × List (ObjId × List String) :=
  if !isnew then
    let to_load := (partials.lookup oid).getD []
    let st := cfg.pops.existing.foldl (onlyKeys to_load (popStep row)) st0
    (to_load, st, partials)
  else
    let to_load := unloaded
    let partials2 := setAssoc partials oid to_load
    let st := st0
    let st := if !cfg.propagateOptions.isEmpty then
        { st with loadOptions := cfg.propagateOptions } else st
    let st := if !st.loadOptions.isEmpty then { st with loadPath := some cfg.loadPath } else st
    let st := cfg.pops.quick.foldl (onlyKeys to_load (quickStep row)) st
    let st := cfg.pops.expire.foldl (onlyKeys to_load expireStepRepop) st
    let st := cfg.pops.new.foldl (onlyKeys to_load (popStep row)) st
    let st := cfg.pops.delayed.foldl (onlyKeys to_load (popStep row)) st
    (to_load, st, partials2)

/-- The population dispatch of `_instance` (source lines 366-416):
full population when currently loading or repopulation was requested,
with the load/refresh dispatch and the commit of the written
attributes on a first sighting; otherwise partial population driven
by the context's `partials` map, the eager populators and a commit of
exactly the to-load set on a first sighting within the pass. -/
def instance_populate (cfg : ProcCfg) (row : Row) (s : LoadState) (oid : ObjId)
    (st : ObjState) (isnew currentload loaded_instance : Bool) :
    Except LoadErr (Option ObjId × LoadState) :=
  if currentload || cfg.populateExisting then
    let st2 := _populate_full cfg row st isnew loaded_instance cfg.populateExisting
    let s2 := setObj s oid st2
    if isnew then
      let s3 :=
        if loaded_instance && cfg.loadEvt then logEvt s2 (.loadEvt oid)
        else if isnew && cfg.refreshEvt then logEvt s2 (.refreshEvt oid cfg.onlyLoadProps)
        else s2
      if cfg.populateExisting || st2.modified then
        if cfg.refreshState.isSome && truthyProps cfg.onlyLoadProps then
          .ok (some oid, logEvt s3 (.commitKeys oid (cfg.onlyLoadProps.getD [])))
        else
          .ok (some oid, logEvt s3 (.commitAll oid))
      else .ok (some oid, s3)
    else .ok (some oid, s2)
  else
    let unloaded := st.unloaded
    let isnew2 := (s.partials.lookup oid).isNone
    if !isnew2 || !unloaded.isEmpty || !cfg.pops.eager.isEmpty then
      let r := populate_partial' cfg row oid st isnew2 unloaded s.partials
      let st3 := cfg.pops.eager.foldl (eagerStep unloaded row) r.2.1
      let s2 := { setObj s oid st3 with partials := r.2.2 }
      if isnew2 then
        let s3 := if cfg.refreshEvt then logEvt s2 (.refreshEvt oid (some r.1)) else s2
        .ok (some oid, logEvt s3 (.commitKeys oid r.1))
      else .ok (some oid, s2)
    else .ok (some oid, s)

/-- The identity-resolution part of `_instance` (source lines
300-364), reached when no polymorphic dispatch handled the row: the
refresh path targets the fixed refresh state; otherwise the identity
key is computed from the row, looked up in the session identity map,
version-checked when found, and a new tracked state is created and
inserted when not found and not disqualified by the primary-key null
test. -/
def instance_resolve (cfg : ProcCfg) (row : Row) (s : LoadState) :
    Except LoadErr (Option ObjId × LoadState) :=
  match cfg.refreshState with
  | some oid =>
    let st := getObj s oid
    let isnew := st.runid != some cfg.runid
    instance_populate cfg row s oid st isnew true false
  | none =>
    let identitykey := rowIdentity cfg row
    match s.imap.lookup identitykey with
    | some oid =>
      let st := getObj s oid
      let isnew := st.runid != some cfg.runid
      let currentload := !isnew
      if versionFails cfg st row currentload then
        .error (.staleData oid (dictGet st.dict cfg.versionAttrKey) (rowVersion cfg row))
      else
        instance_populate cfg row s oid st isnew currentload false
    | none =>
      if is_not_primary_key cfg.allowPartialPks identitykey.2 then
        .ok (none, s)
      else
        let oid := s.nextId
        let st : ObjState :=
          { key := some identitykey, sessionId := some cfg.sessionId }
        let s2 := { s with objs := setAssoc s.objs oid st,
                           imap := setAssoc s.imap identitykey oid,
                           nextId := oid + 1 }
        instance_populate cfg row s2 oid st true true true

/-- The per-row processor returned by `instance_processor` (source
lines 290-417).  If a polymorphic dispatcher was built, it is invoked
first; any result other than the decline sentinel `False` is
returned immediately (a NULL discriminator makes the dispatcher fall
off the end and yield `None`, an unknown discriminator value raises
an assertion error, a discriminator mapping to the base mapper
itself yields the decline sentinel, and otherwise the row is
delegated to the subclass processor). -/
def _instance (cfg : ProcCfg) (row : Row) (s : LoadState) :
    Except LoadErr (Option ObjId × LoadState) :=
  match cfg.polySwitch with
  | some pc =>
    match rowGet row pc.col with
    | none => .ok (none, s)
    | some d =>
      match pc.subMap.lookup d with
      | none => .error (.assertionError d)
      | some none => instance_resolve cfg row s
      | some (some sub) => sub row s
  | none => instance_resolve cfg row s

/-- The mapper descriptor consumed by the factory: primary-key
columns, optional version column together with the attribute it is
read through, identity class, configuration flags, the polymorphic
discriminator column and the discriminator-to-subclass map (a value
of `none` marks the base mapper itself; the subclass row processors
recursively built by `instance_processor` are carried as opaque
functions), and whether load/refresh event listeners exist. -/
structure Mapper where
  primary_key : List Nat
  version_id_col : Option Nat
  versionAttrKey : String
  identity_class : Nat
  allow_partial_pks : Bool
  always_refresh : Bool
  polymorphic_on : Option Nat
  polymorphic_map : List (Int × Option SubProc)
  dispatch_load : Bool
  dispatch_refresh : Bool

/-- The query-context constants snapshotted by the factory. -/
structure QContext where
  runid : Nat
  populate_existing : Bool
  version_check : Bool
  propagate_options : List String
  session_hash_key : Nat

/-- Build the polymorphic dispatcher (`_polymorphic_switch`): prefer
an explicit discriminator override, fall back to the mapper's
discriminator column, adapt it, and return `none` when the mapper has
no discriminator. -/
def _polymorphic_switch (mapper : Mapper) (adapter : Option (Nat → Nat))
    (polymorphic_discriminator : Option Nat) : Option PolyCfg :=
  let polymorphic_on :=
    match polymorphic_discriminator with
    | some c => some c
    | none => mapper.polymorphic_on
  match polymorphic_on with
  | none => none
  | some col =>
    some { col := (match adapter with | some ad => ad col | none => col),
           subMap := mapper.polymorphic_map }

/-- The row-processor factory (`instance_processor`): resolve the
(possibly adapted) primary-key and version columns, build the
polymorphic dispatcher unless the processor is a polymorphic branch
or a refresh processor, and snapshot the context constants.  The
returned `ProcCfg` is what the per-row closure `_instance` closes
over. -/
def instance_processor (mapper : Mapper) (ctx : QContext) (pops : Populators)
    (adapter : Option (Nat → Nat)) (path : Nat) (polymorphic_from : Bool)
    (only_load_props : Option (List String)) (refresh_state : Option ObjId)
    (polymorphic_discriminator : Option Nat) : ProcCfg where
  pkCols := match adapter with
    | some ad => mapper.primary_key.map ad
    | none => mapper.primary_key
  versionIdCol := match adapter, mapper.version_id_col with
    | some ad, some c => some (ad c)
    | _, c => c
  versionAttrKey := mapper.versionAttrKey
  identityClass := mapper.identity_class
  pops := pops
  populateExisting := ctx.populate_existing || mapper.always_refresh
  loadEvt := mapper.dispatch_load
  refreshEvt := mapper.dispatch_refresh
  sessionId := ctx.session_hash_key
  versionCheck := ctx.version_check
  runid := ctx.runid
  allowPartialPks := mapper.allow_partial_pks
  onlyLoadProps := only_load_props
  refreshState := refresh_state
  propagateOptions := ctx.propagate_options
  loadPath := path
  polySwitch := if polymorphic_from || refresh_state.isSome then none
    else _polymorphic_switch mapper adapter polymorphic_discriminator

/-- Modelled from the spec: `Query.one` lives in `orm/query.py`, which
is not part of this source tree.  Per the spec it returns the single
matched row, raises `NoResultFound` on zero rows and
`MultipleResultsFound` on more than one row.  The query itself is
abstracted by the list of rows it matches. -/
def query_one {α : Type} (matching : List α) : Except LoadErr α :=
  match matching with
  | [] => .error .noResultFound
  | [a] => .ok a
  | _ => .error .multipleResultsFound

/-- The result handling of `load_on_ident` (source lines 211-214):
`q.one()` guarded by a handler that turns `NoResultFound` into a null
result; every other error propagates.  The single-identity query is
abstracted by the list of rows it matches. -/
def load_on_ident {α : Type} (matching : List α) : Except LoadErr (Option α) :=
  match query_one matching with
  | .ok a => .ok (some a)
  | .error .noResultFound => .ok none
  | .error e => .error e

/-- A view of the Python values over which `_none_set.issubset` and
`_none_set.issuperset` iterate in `load_scalar_attributes`: the
identity key there is the pair `(identity_class, pk_value_tuple)`, so
the iterated elements are a class object and a tuple object. -/
inductive PyVal where
  | pynone
  | cls (c : Nat)
  | tup (vals : List Val)
  deriving Repr, DecidableEq

/-- Python `x is None` on a viewed value. -/
def PyVal.isNone : PyVal → Bool
  | .pynone => true
  | _ => false

/-- The elements Python iterates over when an identity key pair is
passed to a set operation: its class component and its tuple
component. -/
def keyElems (k : IdentKey) : List PyVal := [.cls k.1, .tup k.2]

/-- Inputs of `load_scalar_attributes`, with the external
collaborators abstracted: whether the state has an owning session,
the state's key and expired attributes, the mapper flags, the
primary-key attribute names, the identity key computed from the
state when it has none, whether the optimized inheritance statement
exists, and the results the two possible identity loads would
return. -/
structure LSAArgs where
  hasSession : Bool
  stateKey : Option IdentKey
  expired_attributes : List String
  pk_attrs : List String
  inherits : Bool
  concrete : Bool
  allow_partial_pks : Bool
  optimized_statement : Bool
  optimizedLoadResult : Option ObjId
  identityKeyFromState : IdentKey
  identLoadResult : Option ObjId
  deriving Repr, DecidableEq

/-- Observable outcome of `load_scalar_attributes`. -/
inductive LSAOutcome where
  | detached
  | invalidRequest
  | warned
  | objectDeleted
  | done (viaOptimized : Bool) (result : Option ObjId)
  deriving Repr, DecidableEq

/-- Whether an outcome is the warn-and-decline outcome. -/
def LSAOutcome.isWarned : LSAOutcome → Bool
  | .warned => true
  | _ => false

/-- The identity-load tail of `load_scalar_attributes`: the
warn-and-decline guard
`(_none_set.issubset(identity_key) and not mapper.allow_partial_pks)
or _none_set.issuperset(identity_key)` evaluated over the elements of
the key pair, then the fallback identity load and the
`ObjectDeleted` check. -/
def load_scalar_attributes_ident (a : LSAArgs) (identity_key : IdentKey) : LSAOutcome :=
  if ((keyElems identity_key).any PyVal.isNone && !a.allow_partial_pks)
      || (keyElems identity_key).all PyVal.isNone then
    .warned
  else
    if a.stateKey.isSome && a.identLoadResult.isNone then .objectDeleted
    else .done false a.identLoadResult

/-- The control flow of `load_scalar_attributes` (source lines
539-599): raise `DetachedInstance` without a session; try the
optimized inheritance statement; otherwise take the state's key or,
for a pending object, compute one after checking that no primary-key
attribute is expired; warn and decline when the key fails the
null-test guard; issue the identity load; raise `ObjectDeleted` when
a has-identity object's load returns no row. -/
def load_scalar_attributes (a : LSAArgs) : LSAOutcome :=
  if !a.hasSession then .detached
  else
    let has_key := a.stateKey.isSome
    if a.inherits && !a.concrete && a.optimized_statement then
      if has_key && a.optimizedLoadResult.isNone then .objectDeleted
      else .done true a.optimizedLoadResult
    else
      match a.stateKey with
      | some k => load_scalar_attributes_ident a k
      | none =>
        if a.expired_attributes.any (fun x => x ∈ a.pk_attrs) then .invalidRequest
        else load_scalar_attributes_ident a a.identityKeyFromState

/-- The identity map of a session, as seen by `merge_result`. -/
abbrev IMap := List (IdentKey × ObjId)

/-- The session as seen by `merge_result`: the auto-flush flag it
toggles, the identity map its merge operations write, and an opaque
stand-in for every other piece of session configuration (which
`merge_result` never touches). -/
structure Session where
  autoflush : Bool
  config : Nat
  imap : IMap
  deriving Repr, DecidableEq

/-- The merge loop of `merge_result` over a single-entity result: each
instance is passed to the session's `_merge` (an opaque operation
that may read the whole session, returns the merged object and the
updated identity map, and may fail); the first failure aborts the
loop, as an uncaught exception does. -/
def mergeLoop (mergeFn : Session → ObjId → Except LoadErr (ObjId × IMap)) :
    Session → List ObjId → Except LoadErr (List ObjId) × Session
  | sess, [] => (.ok [], sess)
  | sess, o :: rest =>
    match mergeFn sess o with
    | .error e => (.error e, sess)
    | .ok (o2, m) =>
      match mergeLoop mergeFn { sess with imap := m } rest with
      | (.ok os, s2) => (.ok (o2 :: os), s2)
      | (.error e, s2) => (.error e, s2)

/-- The frame of `merge_result` (source lines 82-122, single-entity
mapper branch): optionally auto-flush first, save the session's
auto-flush flag, clear it, run the merge loop, and restore the saved
flag in a `finally` block so it is restored on success and on
failure alike.  The outcome and the final session are both
returned. -/
def merge_result (load : Bool) (aflush : IMap → IMap)
    (mergeFn : Session → ObjId → Except LoadErr (ObjId × IMap))
    (objs : List ObjId) (sess0 : Session) : Except LoadErr (List ObjId) × Session :=
  let sess1 := if load then { sess0 with imap := aflush sess0.imap } else sess0
  let saved := sess1.autoflush
  let r := mergeLoop mergeFn { sess1 with autoflush := false } objs
  (r.1, { r.2 with autoflush := saved })

/-- Whether a result is a normal (non-raising) result. -/
def exceptOk {ε α : Type} : Except ε α → Bool
  | .ok _ => true
  | .error _ => false

/-- The world after a processor result (the unchanged default world
for an error result). -/
def stateOf (r : Except LoadErr (Option ObjId × LoadState)) : LoadState :=
  match r with
  | .ok p => p.2
  | .error _ => default

/-- The object of a processor result. -/
def objOf (r : Except LoadErr (Option ObjId × LoadState)) : Option ObjId :=
  match r with
  | .ok p => p.1
  | .error _ => none

theorem setAssoc_lookup_self {α β : Type} [DecidableEq α] [BEq α] [LawfulBEq α] (l : List (α × β)) (k : α) (v : β) :
    (setAssoc l k v).lookup k = some v := by
  induction l with
  | nil => simp [setAssoc, List.lookup]
  | cons hd t ih =>
    obtain ⟨a, b⟩ := hd
    by_cases hk : a = k
    · subst hk
      simp [setAssoc, List.lookup]
    · simp only [setAssoc, if_neg hk]
      simpa [List.lookup, beq_eq_false_iff_ne.mpr (fun e => hk e.symm)] using ih

theorem setAssoc_lookup_ne {α β : Type} [DecidableEq α] [BEq α] [LawfulBEq α] (l : List (α × β)) (k k' : α) (v : β)
    (h : k' ≠ k) : (setAssoc l k v).lookup k' = l.lookup k' := by
  induction l with
  | nil => simp [setAssoc, List.lookup, beq_eq_false_iff_ne.mpr h]
  | cons hd t ih =>
    obtain ⟨a, b⟩ := hd
    by_cases hk : a = k
    · subst hk
      simp [setAssoc, List.lookup, beq_eq_false_iff_ne.mpr h]
    · simp only [setAssoc, if_neg hk]
      cases hbeq : k' == a <;> simp [List.lookup, hbeq, ih]

theorem setAssoc_length_new {α β : Type} [DecidableEq α] [BEq α] [LawfulBEq α] (l : List (α × β)) (k : α) (v : β)
    (h : l.lookup k = none) : (setAssoc l k v).length = l.length + 1 := by
  induction l with
  | nil => simp [setAssoc]
  | cons hd t ih =>
    obtain ⟨a, b⟩ := hd
    by_cases hk : a = k
    · subst hk
      simp [List.lookup] at h
    · simp only [List.lookup] at h
      rw [beq_eq_false_iff_ne.mpr (fun e => hk e.symm)] at h
      simp only [setAssoc, if_neg hk, List.length_cons]
      rw [ih h]

theorem getLast_append_single {α : Type} (l : List α) (a : α) :
    (l ++ [a]).getLast? = some a := by
  induction l with
  | nil => rfl
  | cons x xs ih =>
    rw [List.cons_append, List.getLast?_cons, ih]
    cases xs <;> rfl

theorem foldl_proj {α β γ : Type} (proj : β → γ) (f : β → α → β)
    (h : ∀ b a, proj (f b a) = proj b) :
    ∀ (l : List α) (b : β), proj (l.foldl f b) = proj b
  | [], _ => rfl
  | a :: l, b => by rw [List.foldl_cons, foldl_proj proj f h l (f b a), h]

theorem applyPop_runid (p : Populator) (row : Row) (st : ObjState) :
    (applyPop p row st).runid = st.runid := rfl

theorem popStep_runid (row : Row) (t : ObjState) (kv : String × Populator) :
    (popStep row t kv).runid = t.runid := rfl

theorem quickStep_runid (row : Row) (t : ObjState) (kv : String × (Row → Val)) :
    (quickStep row t kv).runid = t.runid := rfl

theorem expireStepRepop_runid (t : ObjState) (kv : String × Bool) :
    (expireStepRepop t kv).runid = t.runid := by
  unfold expireStepRepop
  dsimp only
  split <;> rfl

theorem expireStep_runid (t : ObjState) (kv : String × Bool) :
    (expireStep t kv).runid = t.runid := by
  unfold expireStep
  split <;> rfl

/-- Full population on a first sighting stamps the context's run id,
and no later step of it (options, quick, expire, new, delayed) can
change the stamp. -/
theorem populate_full_runid (cfg : ProcCfg) (row : Row) (st : ObjState)
    (li pe : Bool) : (_populate_full cfg row st true li pe).runid = some cfg.runid := by
  have hp := foldl_proj ObjState.runid (popStep row) (popStep_runid row)
  have hq := foldl_proj ObjState.runid (quickStep row) (quickStep_runid row)
  have he1 := foldl_proj ObjState.runid expireStepRepop expireStepRepop_runid
  have he2 := foldl_proj ObjState.runid expireStep expireStep_runid
  unfold _populate_full
  rw [if_pos rfl]
  dsimp only
  rw [hp, hp]
  split
  · rw [he1, hq]
    split <;> (try split) <;> rfl
  · rw [he2, hq]
    split <;> (try split) <;> rfl

/-- The full-population path of the dispatch returns the populated
object and only rewrites that object's stored state and appends
events: identity map, id counter and `partials` are untouched. -/
theorem instance_populate_full_spec (cfg : ProcCfg) (row : Row) (s : LoadState)
    (oid : ObjId) (st : ObjState) (isnew li : Bool) :
    ∃ s', instance_populate cfg row s oid st isnew true li = .ok (some oid, s') ∧
      s'.imap = s.imap ∧ s'.nextId = s.nextId ∧ s'.partials = s.partials ∧
      s'.objs = setAssoc s.objs oid (_populate_full cfg row st isnew li cfg.populateExisting) := by
  unfold instance_populate
  rw [if_pos (by simp : (true || cfg.populateExisting) = true)]
  cases isnew with
  | false =>
    exact ⟨_, rfl, rfl, rfl, rfl, rfl⟩
  | true =>
    rw [if_pos rfl]
    dsimp only
    repeat' split
    all_goals exact ⟨_, rfl, by simp [setObj, logEvt], by simp [setObj, logEvt],
      by simp [setObj, logEvt], by simp [setObj, logEvt]⟩

/-- The population dispatch never raises; every normal outcome is the
resolved object. -/
theorem instance_populate_ok (cfg : ProcCfg) (row : Row) (s : LoadState)
    (oid : ObjId) (st : ObjState) (isnew currentload li : Bool) :
    ∃ s', instance_populate cfg row s oid st isnew currentload li = .ok (some oid, s') := by
  unfold instance_populate
  dsimp only
  repeat' split
  all_goals exact ⟨_, rfl⟩

/-- If an object from a previous pass has not yet been seen this
pass, has nothing unloaded and the processor has no eager
populators, the partial path skips entirely: the world is returned
unchanged. -/
theorem instance_populate_partial_skip (cfg : ProcCfg) (row : Row) (s : LoadState)
    (oid : ObjId) (st : ObjState) (li : Bool)
    (h1 : cfg.populateExisting = false) (h2 : s.partials.lookup oid = none)
    (h3 : st.unloaded = []) (h4 : cfg.pops.eager = []) :
    instance_populate cfg row s oid st true false li = .ok (some oid, s) := by
  unfold instance_populate
  rw [if_neg (by simp [h1])]
  dsimp only
  rw [if_neg (by simp [h2, h3, h4])]

/-- On a first sighting within the pass, the to-load set returned by
partial population is exactly the unloaded set it was given. -/
theorem populate_partial_isnew_fst (cfg : ProcCfg) (row : Row) (oid : ObjId)
    (st : ObjState) (unl : List String) (partials : List (ObjId × List String)) :
    (populate_partial' cfg row oid st true unl partials).1 = unl := by
  unfold populate_partial'
  rw [if_neg (by simp)]

/-- On a first sighting within the pass, partial population caches the
to-load set in the context's `partials` map. -/
theorem populate_partial_isnew_snd (cfg : ProcCfg) (row : Row) (oid : ObjId)
    (st : ObjState) (unl : List String) (partials : List (ObjId × List String)) :
    (populate_partial' cfg row oid st true unl partials).2.2 = setAssoc partials oid unl := by
  unfold populate_partial'
  rw [if_neg (by simp)]

/-- First sighting of a previous-pass object within a pass: the
to-load set is the object's currently-unloaded attribute set and is
cached in `partials`; the object's new state is the partial
population followed by the eager populators whose key is not among
the unloaded (i.e. already-loaded) attributes; a refresh
notification (when listeners exist) and a commit of exactly the
to-load set are appended. -/
theorem instance_populate_partial_first_spec (cfg : ProcCfg) (row : Row) (s : LoadState)
    (oid : ObjId) (st : ObjState) (li : Bool)
    (h1 : cfg.populateExisting = false) (h2 : s.partials.lookup oid = none)
    (h3 : ¬(st.unloaded = [] ∧ cfg.pops.eager = [])) :
    ∃ s', instance_populate cfg row s oid st true false li = .ok (some oid, s') ∧
      s'.partials = setAssoc s.partials oid st.unloaded ∧
      s'.objs = setAssoc s.objs oid
        (cfg.pops.eager.foldl (eagerStep st.unloaded row)
          (populate_partial' cfg row oid st true st.unloaded s.partials).2.1) ∧
      s'.imap = s.imap ∧ s'.nextId = s.nextId ∧
      s'.events = s.events
        ++ (if cfg.refreshEvt then [Event.refreshEvt oid (some st.unloaded)] else [])
        ++ [Event.commitKeys oid st.unloaded] := by
  have hfst : (populate_partial' cfg row oid st true st.unloaded s.partials).1
      = st.unloaded := populate_partial_isnew_fst cfg row oid st st.unloaded s.partials
  have hparts : (populate_partial' cfg row oid st true st.unloaded s.partials).2.2
      = setAssoc s.partials oid st.unloaded :=
    populate_partial_isnew_snd cfg row oid st st.unloaded s.partials
  unfold instance_populate
  rw [if_neg (by simp [h1])]
  dsimp only
  rw [h2]
  simp only [Option.isNone_none]
  rw [if_pos (by
    rcases not_and_or.mp h3 with h | h
    · simp [List.isEmpty_iff, h]
    · simp [List.isEmpty_iff, h])]
  rw [if_pos trivial]
  split
  · exact ⟨_, rfl, by simp [setObj, logEvt, hparts], by simp [setObj, logEvt],
      by simp [setObj, logEvt], by simp [setObj, logEvt], by simp [setObj, logEvt, hfst]⟩
  · exact ⟨_, rfl, by simp [setObj, logEvt, hparts], by simp [setObj, logEvt],
      by simp [setObj, logEvt], by simp [setObj, logEvt], by simp [setObj, logEvt, hfst]⟩

/-- Without a polymorphic dispatcher the processor is exactly the
identity-resolution algorithm. -/
theorem instance_poly_none (cfg : ProcCfg) (row : Row) (s : LoadState)
    (h : cfg.polySwitch = none) : _instance cfg row s = instance_resolve cfg row s := by
  unfold _instance
  rw [h]

/-- Identity resolution on a miss of the identity map: the row is
disqualified by the primary-key null test, or a fresh tracked state
is created, keyed, attached to the session, inserted into the
identity map and fully populated. -/
theorem resolve_not_found (cfg : ProcCfg) (row : Row) (s : LoadState)
    (h0 : cfg.refreshState = none)
    (h1 : s.imap.lookup (rowIdentity cfg row) = none) :
    instance_resolve cfg row s =
      if is_not_primary_key cfg.allowPartialPks (rowIdentity cfg row).2 then .ok (none, s)
      else instance_populate cfg row
        { s with objs := setAssoc s.objs s.nextId ({ key := some (rowIdentity cfg row), sessionId := some cfg.sessionId } : ObjState),
                 imap := setAssoc s.imap (rowIdentity cfg row) s.nextId,
                 nextId := s.nextId + 1 }
        s.nextId ({ key := some (rowIdentity cfg row), sessionId := some cfg.sessionId } : ObjState)
        true true true := by
  unfold instance_resolve
  rw [h0]
  dsimp only
  rw [h1]

/-- Identity resolution on a hit of the identity map: the row is
version-checked (only when the object is not currently loading) and
then dispatched to population with `isnew` decided by the run-id
comparison. -/
theorem resolve_found (cfg : ProcCfg) (row : Row) (s : LoadState) (oid : ObjId) (st : ObjState)
    (h0 : cfg.refreshState = none)
    (h1 : s.imap.lookup (rowIdentity cfg row) = some oid)
    (h2 : s.objs.lookup oid = some st) :
    instance_resolve cfg row s =
      if versionFails cfg st row (!(st.runid != some cfg.runid)) then
        .error (.staleData oid (dictGet st.dict cfg.versionAttrKey) (rowVersion cfg row))
      else
        instance_populate cfg row s oid st (st.runid != some cfg.runid)
          (!(st.runid != some cfg.runid)) false := by
  unfold instance_resolve
  rw [h0]
  dsimp only
  rw [h1]
  dsimp only
  rw [getObj, h2]
  rfl

/-- A primary-key tuple with at least one value and no NULL values is
never disqualified, under either null-test policy. -/
theorem is_not_primary_key_all_some (b : Bool) (vals : List Val)
    (hne : vals ≠ []) (h : vals.all (fun v => v.isSome) = true) :
    is_not_primary_key b vals = false := by
  have hall : ∀ v ∈ vals, v ≠ none := by
    intro v hv
    have := List.all_eq_true.mp h v hv
    simpa [Option.isSome_iff_ne_none] using this
  cases b with
  | false =>
    unfold is_not_primary_key
    rw [if_neg (by decide)]
    rw [Bool.eq_false_iff]
    intro hx
    rcases List.any_eq_true.mp hx with ⟨v, hv, hvnone⟩
    exact hall v hv (by simpa using hvnone)
  | true =>
    unfold is_not_primary_key
    rw [if_pos rfl]
    rw [Bool.eq_false_iff]
    intro hx
    match vals, hne, hall with
    | v :: rest, _, hall =>
      exact hall v (by simp) (by simpa using List.all_eq_true.mp hx v (by simp))

/-- A plain single-table mapper with one primary-key column at
position 0 and a version attribute name, used as a concrete
fixture. -/
def mapperPlain : Mapper where
  primary_key := [0]
  version_id_col := none
  versionAttrKey := "v"
  identity_class := 0
  allow_partial_pks := false
  always_refresh := false
  polymorphic_on := none
  polymorphic_map := []
  dispatch_load := false
  dispatch_refresh := false

/-- A plain query context fixture: run id 0, no special flags. -/
def ctxPlain : QContext where
  runid := 0
  populate_existing := false
  version_check := false
  propagate_options := []
  session_hash_key := 0

/-- An empty world fixture. -/
def emptyLS : LoadState := {}

/-- The processor built from the plain fixtures with empty populator
buckets. -/
def cfgPlain : ProcCfg :=
  instance_processor mapperPlain ctxPlain {} none 0 false none none none

/-- C1: two rows of one load pass with equal non-null primary-key
values and the same entity class produce exactly one new tracked
state: the first row allocates one object and inserts one new
identity-map entry; the second row resolves to the same object and
changes neither the identity map nor the allocation counter. -/
theorem C1_single_state_per_identity (mapper : Mapper) (ctx : QContext) (pops : Populators)
    (adapter : Option (Nat → Nat)) (path : Nat) (pf : Bool) (olp : Option (List String))
    (pd : Option Nat) (cfg : ProcCfg) (row1 row2 : Row) (s : LoadState)
    (hcfg : cfg = instance_processor mapper ctx pops adapter path pf olp none pd)
    (hps : cfg.polySwitch = none)
    (hpk : cfg.pkCols ≠ [])
    (h1 : s.imap.lookup (rowIdentity cfg row1) = none)
    (h2 : (rowIdentity cfg row1).2.all (fun v => v.isSome) = true)
    (h3 : rowIdentity cfg row1 = rowIdentity cfg row2) :
    ∃ s1 s2,
      _instance cfg row1 s = .ok (some s.nextId, s1) ∧
      s1.nextId = s.nextId + 1 ∧
      s1.imap = setAssoc s.imap (rowIdentity cfg row1) s.nextId ∧
      s1.imap.length = s.imap.length + 1 ∧
      _instance cfg row2 s1 = .ok (some s.nextId, s2) ∧
      s2.imap = s1.imap ∧ s2.nextId = s1.nextId := by
  have h0 : cfg.refreshState = none := by subst hcfg; rfl
  have hvne : (rowIdentity cfg row1).2 ≠ [] := by
    dsimp only [rowIdentity]
    simpa [List.map_eq_nil_iff] using hpk
  have hnq := is_not_primary_key_all_some cfg.allowPartialPks _ hvne h2
  obtain ⟨s1, hs1, him1, hn1, hp1, ho1⟩ := instance_populate_full_spec cfg row1
    { s with objs := setAssoc s.objs s.nextId ({ key := some (rowIdentity cfg row1), sessionId := some cfg.sessionId } : ObjState),
             imap := setAssoc s.imap (rowIdentity cfg row1) s.nextId,
             nextId := s.nextId + 1 }
    s.nextId ({ key := some (rowIdentity cfg row1), sessionId := some cfg.sessionId } : ObjState)
    true true
  have e1 : _instance cfg row1 s = .ok (some s.nextId, s1) := by
    rw [instance_poly_none cfg row1 s hps, resolve_not_found cfg row1 s h0 h1,
      if_neg (by simp [hnq]), hs1]
  have him1' : s1.imap = setAssoc s.imap (rowIdentity cfg row1) s.nextId := him1
  have hn1' : s1.nextId = s.nextId + 1 := hn1
  have ho1' : s1.objs = setAssoc
      (setAssoc s.objs s.nextId ({ key := some (rowIdentity cfg row1), sessionId := some cfg.sessionId } : ObjState))
      s.nextId
      (_populate_full cfg row1 ({ key := some (rowIdentity cfg row1), sessionId := some cfg.sessionId } : ObjState)
        true true cfg.populateExisting) := ho1
  have hlk2 : s1.imap.lookup (rowIdentity cfg row2) = some s.nextId := by
    rw [← h3, him1']
    exact setAssoc_lookup_self s.imap (rowIdentity cfg row1) s.nextId
  have hobj2 : s1.objs.lookup s.nextId = some
      (_populate_full cfg row1 ({ key := some (rowIdentity cfg row1), sessionId := some cfg.sessionId } : ObjState)
        true true cfg.populateExisting) := by
    rw [ho1']
    exact setAssoc_lookup_self _ s.nextId _
  have hrun := populate_full_runid cfg row1
    ({ key := some (rowIdentity cfg row1), sessionId := some cfg.sessionId } : ObjState)
    true cfg.populateExisting
  have hisnew : ((_populate_full cfg row1 ({ key := some (rowIdentity cfg row1), sessionId := some cfg.sessionId } : ObjState)
      true true cfg.populateExisting).runid != some cfg.runid) = false := by
    rw [hrun]
    simp
  obtain ⟨s2, hs2, him2, hn2, hp2, ho2⟩ := instance_populate_full_spec cfg row2 s1 s.nextId
    (_populate_full cfg row1 ({ key := some (rowIdentity cfg row1), sessionId := some cfg.sessionId } : ObjState)
      true true cfg.populateExisting) false false
  have e2 : _instance cfg row2 s1 = .ok (some s.nextId, s2) := by
    rw [instance_poly_none cfg row2 s1 hps, resolve_found cfg row2 s1 s.nextId _ h0 hlk2 hobj2,
      hisnew]
    simp only [Bool.not_false]
    rw [if_neg (by simp [versionFails]), hs2]
  refine ⟨s1, s2, e1, hn1', him1', ?_, e2, him2, hn2⟩
  rw [him1']
  exact setAssoc_length_new s.imap (rowIdentity cfg row1) s.nextId h1

/-- Witness for C1 at a concrete processor, two one-column rows with
primary key 1 and an empty world. -/
theorem C1_single_state_per_identity_w :
    emptyLS.imap.lookup (rowIdentity cfgPlain [some 1]) = none ∧
    ∃ s1 s2,
      _instance cfgPlain [some 1] emptyLS = .ok (some emptyLS.nextId, s1) ∧
      s1.nextId = emptyLS.nextId + 1 ∧
      s1.imap = setAssoc emptyLS.imap (rowIdentity cfgPlain [some 1]) emptyLS.nextId ∧
      s1.imap.length = emptyLS.imap.length + 1 ∧
      _instance cfgPlain [some 1, some 9] s1 = .ok (some emptyLS.nextId, s2) ∧
      s2.imap = s1.imap ∧ s2.nextId = s1.nextId :=
  ⟨rfl, C1_single_state_per_identity mapperPlain ctxPlain {} none 0 false none none
    cfgPlain [some 1] [some 1, some 9] emptyLS rfl rfl
    (by decide) rfl (by decide) rfl⟩

/-- C2: a row whose identity is not in the identity map is
disqualified exactly according to the build-time null-test policy
(all primary-key values NULL for a partial-pk-tolerant mapper, any
NULL value otherwise), and a disqualified row yields a null object
and leaves the whole world, in particular the identity map,
unchanged. -/
theorem C2_pk_null_policy (mapper : Mapper) (ctx : QContext) (pops : Populators)
    (adapter : Option (Nat → Nat)) (path : Nat) (pf : Bool) (olp : Option (List String))
    (pd : Option Nat) (cfg : ProcCfg) (row : Row) (s : LoadState)
    (hcfg : cfg = instance_processor mapper ctx pops adapter path pf olp none pd)
    (hps : cfg.polySwitch = none)
    (h1 : s.imap.lookup (rowIdentity cfg row) = none) :
    ((_instance cfg row s = .ok (none, s)) ↔
        is_not_primary_key cfg.allowPartialPks (rowIdentity cfg row).2 = true) ∧
    (cfg.allowPartialPks = true →
      is_not_primary_key cfg.allowPartialPks (rowIdentity cfg row).2
        = (rowIdentity cfg row).2.all (fun v => v = none)) ∧
    (cfg.allowPartialPks = false →
      is_not_primary_key cfg.allowPartialPks (rowIdentity cfg row).2
        = (rowIdentity cfg row).2.any (fun v => v = none)) := by
  have h0 : cfg.refreshState = none := by subst hcfg; rfl
  refine ⟨⟨?_, ?_⟩, ?_, ?_⟩
  · intro heq
    by_contra hnot
    have hd : is_not_primary_key cfg.allowPartialPks (rowIdentity cfg row).2 = false :=
      Bool.eq_false_iff.mpr hnot
    rw [instance_poly_none cfg row s hps, resolve_not_found cfg row s h0 h1,
      if_neg (by simp [hd])] at heq
    obtain ⟨s', hs'⟩ := instance_populate_ok cfg row _ s.nextId _ true true true
    rw [hs'] at heq
    simp at heq
  · intro hd
    rw [instance_poly_none cfg row s hps, resolve_not_found cfg row s h0 h1, if_pos hd]
  · intro hap
    simp [is_not_primary_key, hap]
  · intro hap
    simp [is_not_primary_key, hap]

/-- Witness for C2 at a concrete strict-policy processor and a row
whose single primary-key column is NULL. -/
theorem C2_pk_null_policy_w :
    emptyLS.imap.lookup (rowIdentity cfgPlain [none, some 5]) = none ∧
    ((_instance cfgPlain [none, some 5] emptyLS = .ok (none, emptyLS)) ↔
        is_not_primary_key cfgPlain.allowPartialPks (rowIdentity cfgPlain [none, some 5]).2 = true) ∧
    (cfgPlain.allowPartialPks = true →
      is_not_primary_key cfgPlain.allowPartialPks (rowIdentity cfgPlain [none, some 5]).2
        = (rowIdentity cfgPlain [none, some 5]).2.all (fun v => v = none)) ∧
    (cfgPlain.allowPartialPks = false →
      is_not_primary_key cfgPlain.allowPartialPks (rowIdentity cfgPlain [none, some 5]).2
        = (rowIdentity cfgPlain [none, some 5]).2.any (fun v => v = none)) :=
  ⟨rfl, C2_pk_null_policy mapperPlain ctxPlain {} none 0 false none none
    cfgPlain [none, some 5] emptyLS rfl rfl rfl⟩

/-- C10: a row for an object carried over from a previous pass that
has not been seen this pass, with no unloaded attributes and no
eager populators, is a complete no-op when no repopulation was
requested and the version check passes: the processor returns the
object and the world strictly unchanged (no populator, no event, no
commit, no `partials` entry). -/
theorem C10_partial_noop (mapper : Mapper) (ctx : QContext) (pops : Populators)
    (adapter : Option (Nat → Nat)) (path : Nat) (pf : Bool) (olp : Option (List String))
    (pd : Option Nat) (cfg : ProcCfg) (row : Row) (s : LoadState) (oid : ObjId) (st : ObjState)
    (hcfg : cfg = instance_processor mapper ctx pops adapter path pf olp none pd)
    (hps : cfg.polySwitch = none)
    (h1 : s.imap.lookup (rowIdentity cfg row) = some oid)
    (h2 : s.objs.lookup oid = some st)
    (h3 : st.runid ≠ some cfg.runid)
    (h4 : cfg.populateExisting = false)
    (h5 : versionFails cfg st row false = false)
    (h6 : s.partials.lookup oid = none)
    (h7 : st.unloaded = [])
    (h8 : cfg.pops.eager = []) :
    _instance cfg row s = .ok (some oid, s) := by
  have h0 : cfg.refreshState = none := by subst hcfg; rfl
  have hb : (st.runid != some cfg.runid) = true := bne_iff_ne.mpr h3
  rw [instance_poly_none cfg row s hps, resolve_found cfg row s oid st h0 h1 h2, hb]
  simp only [Bool.not_true]
  rw [if_neg (by simp [h5])]
  exact instance_populate_partial_skip cfg row s oid st false h4 h6 h7 h8

/-- A mapper with a version column at row position 1, read through
attribute name `v`. -/
def mapperC3 : Mapper := { mapperPlain with version_id_col := some 1 }

/-- A context with version checking enabled. -/
def ctxC3 : QContext := { ctxPlain with version_check := true }

/-- Populators with a single `quick` getter loading the version
attribute from row position 1. -/
def popsC3 : Populators := { quick := [("v", fun r => rowGet r 1)] }

/-- A version-checking processor fixture. -/
def cfgC3 : ProcCfg := instance_processor mapperC3 ctxC3 popsC3 none 0 false none none none

/-- The world after the version-checking processor handled a first
row with primary key 1 and version 10. -/
def sC3a : LoadState := stateOf (_instance cfgC3 [some 1, some 10] emptyLS)

/-- C3 counterexample: with version checking enabled and a version
column configured, two sightings of the same identity BY THE SAME
row processor with differing version values do NOT raise on the
second sighting: the first row creates the object (stamping the
current run id), so the second row is "currently loading" and the
version check is skipped; the run succeeds and returns the same
object even though the stored version 10 differs from the row
version 20. -/
theorem C3_version_check_cex :
    exceptOk (_instance cfgC3 [some 1, some 10] emptyLS) = true ∧
    dictGet (getObj sC3a 0).dict "v" = some 10 ∧
    rowGet [some 1, some 20] 1 = some 20 ∧
    exceptOk (_instance cfgC3 [some 1, some 20] sC3a) = true ∧
    objOf (_instance cfgC3 [some 1, some 20] sC3a) = some 0 := by
  refine ⟨rfl, rfl, rfl, rfl, rfl⟩

/-- C3 (amended): with version checking enabled and a version column
configured, a sighting of an identity found in the identity map is
version-checked exactly when the object is not currently loading,
i.e. when its stamped run id differs from the context's run id: at
such a sighting a version mismatch raises StaleData naming the
object and both version values, while identical values raise no
error; a sighting of an object whose run id equals the context's
(for instance because an earlier row of this run fully populated
it, stamping the run id) is not checked at all.  (A carried-over
object that is only partially populated keeps its old run id, so it
is re-checked at each sighting.) -/
theorem C3_version_check_amended (mapper : Mapper) (ctx : QContext) (pops : Populators)
    (adapter : Option (Nat → Nat)) (path : Nat) (pf : Bool) (olp : Option (List String))
    (pd : Option Nat) (cfg : ProcCfg) (row : Row) (s : LoadState) (oid : ObjId)
    (st : ObjState) (vc : Nat)
    (hcfg : cfg = instance_processor mapper ctx pops adapter path pf olp none pd)
    (hps : cfg.polySwitch = none)
    (h1 : s.imap.lookup (rowIdentity cfg row) = some oid)
    (h2 : s.objs.lookup oid = some st)
    (h4 : cfg.versionCheck = true)
    (h5 : cfg.versionIdCol = some vc) :
    (st.runid ≠ some cfg.runid → dictGet st.dict cfg.versionAttrKey ≠ rowGet row vc →
      _instance cfg row s
        = .error (.staleData oid (dictGet st.dict cfg.versionAttrKey) (rowGet row vc))) ∧
    (st.runid ≠ some cfg.runid → dictGet st.dict cfg.versionAttrKey = rowGet row vc →
      ∃ s', _instance cfg row s = .ok (some oid, s')) ∧
    (st.runid = some cfg.runid →
      ∃ s', _instance cfg row s = .ok (some oid, s')) := by
  have h0 : cfg.refreshState = none := by subst hcfg; rfl
  refine ⟨?_, ?_, ?_⟩
  · intro h3 hne
    have hb : (st.runid != some cfg.runid) = true := bne_iff_ne.mpr h3
    rw [instance_poly_none cfg row s hps, resolve_found cfg row s oid st h0 h1 h2, hb]
    simp only [Bool.not_true]
    rw [if_pos (by
      simp only [versionFails, h4, h5, Bool.not_false, Bool.true_and, Bool.and_self]
      exact bne_iff_ne.mpr hne)]
    simp [rowVersion, h5]
  · intro h3 heqv
    have hb : (st.runid != some cfg.runid) = true := bne_iff_ne.mpr h3
    rw [instance_poly_none cfg row s hps, resolve_found cfg row s oid st h0 h1 h2, hb]
    simp only [Bool.not_true]
    rw [if_neg (by simp [versionFails, h4, h5, heqv])]
    exact instance_populate_ok cfg row s oid st true false false
  · intro heq
    have hb : (st.runid != some cfg.runid) = false := by simp [heq]
    rw [instance_poly_none cfg row s hps, resolve_found cfg row s oid st h0 h1 h2, hb]
    simp only [Bool.not_false]
    rw [if_neg (by simp [versionFails])]
    exact instance_populate_ok cfg row s oid st false true false

/-- A tracked state carried over from a previous run (run id 99) with
stored version 3. -/
def stC3w : ObjState := { key := some (0, [some 1]), runid := some 99, dict := [("v", some 3)] }

/-- A world already holding that state under identity (0, [1]). -/
def sC3w : LoadState := { imap := [((0, [some 1]), 0)], objs := [(0, stC3w)], nextId := 1 }

/-- Witness for the amended C3: the carried-over object with stored
version 3 meets a row with version 4 and StaleData is raised with
both values. -/
theorem C3_version_check_amended_w :
    (dictGet stC3w.dict cfgC3.versionAttrKey = some 3 ∧ rowGet [some 1, some 4] 1 = some 4) ∧
    _instance cfgC3 [some 1, some 4] sC3w = .error (.staleData 0 (some 3) (some 4)) :=
  ⟨⟨rfl, rfl⟩,
    (C3_version_check_amended mapperC3 ctxC3 popsC3 none 0 false none none
      cfgC3 [some 1, some 4] sC3w 0 stC3w 1 rfl rfl rfl rfl rfl rfl).1 (by decide) (by decide)⟩

/-- A polymorphic mapper: discriminator at row position 2,
discriminator value 1 mapping to the base mapper itself. -/
def mapperC4 : Mapper :=
  { mapperPlain with polymorphic_on := some 2, polymorphic_map := [(1, none)] }

/-- The polymorphic processor fixture (dispatcher built). -/
def cfgC4 : ProcCfg := instance_processor mapperC4 ctxPlain {} none 0 false none none none

/-- The same mapper built as a polymorphic branch
(`polymorphic_from` set), i.e. the bare base algorithm. -/
def cfgC4base : ProcCfg := instance_processor mapperC4 ctxPlain {} none 0 true none none none

/-- C4 counterexample: on a row with a NULL discriminator and a
non-null primary key absent from the identity map, the dispatcher
yields nothing (`None`) and the processor RETURNS that null
immediately, leaving the world untouched — whereas the base
mapper's own algorithm on the very same row would have created an
object and inserted an identity-map entry.  The claim that the
caller treats the null-discriminator answer as "declined" and
proceeds with the base algorithm is therefore false. -/
theorem C4_null_discriminator_cex :
    rowGet [some 5, none, none] 2 = none ∧
    _instance cfgC4 [some 5, none, none] emptyLS = .ok (none, emptyLS) ∧
    objOf (_instance cfgC4base [some 5, none, none] emptyLS) = some 0 ∧
    (stateOf (_instance cfgC4base [some 5, none, none] emptyLS)).imap.length = 1 := by
  refine ⟨rfl, rfl, rfl, rfl⟩

/-- C4 (amended): a NULL discriminator makes the dispatcher yield
null, which the processor returns immediately: the row contributes
no object and the world is unchanged; the base mapper's algorithm
is NOT run.  The base algorithm proceeds only when the dispatcher
returns the explicit decline sentinel, i.e. when the discriminator
value maps to the base mapper itself. -/
theorem C4_null_discriminator_amended (mapper : Mapper) (ctx : QContext) (pops : Populators)
    (path : Nat) (olp : Option (List String)) (cfg : ProcCfg) (pcol : Nat)
    (row : Row) (s : LoadState)
    (hcfg : cfg = instance_processor mapper ctx pops none path false olp none none)
    (hpol : mapper.polymorphic_on = some pcol) :
    (rowGet row pcol = none → _instance cfg row s = .ok (none, s)) ∧
    (∀ d : Int, rowGet row pcol = some d → mapper.polymorphic_map.lookup d = some none →
      _instance cfg row s = instance_resolve cfg row s) := by
  have hps : cfg.polySwitch = some { col := pcol, subMap := mapper.polymorphic_map } := by
    subst hcfg
    simp [instance_processor, _polymorphic_switch, hpol]
  constructor
  · intro hnull
    unfold _instance
    rw [hps]
    dsimp only
    rw [hnull]
  · intro d hd hbase
    unfold _instance
    rw [hps]
    dsimp only
    rw [hd]
    dsimp only
    rw [hbase]

/-- Witness for the amended C4 at the concrete polymorphic fixture
and a NULL-discriminator row. -/
theorem C4_null_discriminator_amended_w :
    mapperC4.polymorphic_on = some 2 ∧
    _instance cfgC4 [some 5, none, none] emptyLS = .ok (none, emptyLS) :=
  ⟨rfl, (C4_null_discriminator_amended mapperC4 ctxPlain {} 0 none cfgC4 2
    [some 5, none, none] emptyLS rfl rfl).1 rfl⟩

/-- A context requesting unconditional repopulation. -/
def ctxC5 : QContext := { ctxPlain with populate_existing := true }

/-- A processor given an attribute allowlist but no refresh-target
state. -/
def cfgC5 : ProcCfg :=
  instance_processor mapperPlain ctxC5 {} none 0 false (some ["a"]) none none

/-- C5 counterexample: the factory was given the allowlist `["a"]`
and no refresh state; after full population of a brand-new object
with repopulation requested, the commit recorded is the FULL commit
(`_commit_all`), not a selective commit restricted to the
allowlist.  The selective commit requires a refresh-target state in
addition to the allowlist. -/
theorem C5_commit_selection_cex :
    cfgC5.onlyLoadProps = some ["a"] ∧
    cfgC5.refreshState = none ∧
    exceptOk (_instance cfgC5 [some 1] emptyLS) = true ∧
    (stateOf (_instance cfgC5 [some 1] emptyLS)).events = [Event.commitAll 0] := by
  refine ⟨rfl, rfl, rfl, rfl⟩

/-- C5 (amended): after full population of a first-sighting object,
if repopulation was requested or the object is marked modified, the
written attributes are committed: selectively (restricted to the
allowlist) only when the processor factory was given BOTH a
refresh-target state and a non-empty allowlist, and fully in every
other case — including when an allowlist was given without a
refresh target. -/
theorem C5_commit_selection_amended (cfg : ProcCfg) (row : Row) (s : LoadState)
    (oid : ObjId) (st : ObjState) (li : Bool)
    (hgate : (cfg.populateExisting
      || (_populate_full cfg row st true li cfg.populateExisting).modified) = true) :
    ∃ s', instance_populate cfg row s oid st true true li = .ok (some oid, s') ∧
      s'.events.getLast? = some
        (if cfg.refreshState.isSome && truthyProps cfg.onlyLoadProps
          then Event.commitKeys oid (cfg.onlyLoadProps.getD [])
          else Event.commitAll oid) := by
  unfold instance_populate
  rw [if_pos (by simp : (true || cfg.populateExisting) = true)]
  rw [if_pos rfl]
  dsimp only
  rw [if_pos hgate]
  by_cases hC : (cfg.refreshState.isSome && truthyProps cfg.onlyLoadProps) = true
  · rw [if_pos hC]
    exact ⟨_, rfl, by rw [if_pos hC]; simp [logEvt, getLast_append_single]⟩
  · rw [if_neg hC]
    exact ⟨_, rfl, by rw [if_neg hC]; simp [logEvt, getLast_append_single]⟩

/-- Witness for the amended C5: the allowlist-without-refresh
processor commits fully. -/
theorem C5_commit_selection_amended_w :
    ((cfgC5.populateExisting
      || (_populate_full cfgC5 [some 1] {} true true cfgC5.populateExisting).modified) = true) ∧
    ∃ s', instance_populate cfgC5 [some 1] emptyLS 0 {} true true true = .ok (some 0, s') ∧
      s'.events.getLast? = some
        (if cfgC5.refreshState.isSome && truthyProps cfgC5.onlyLoadProps
          then Event.commitKeys 0 (cfgC5.onlyLoadProps.getD [])
          else Event.commitAll 0) :=
  ⟨by decide, C5_commit_selection_amended cfgC5 [some 1] emptyLS 0 {} true (by decide)⟩

/-- An eager populator writing the marker attribute `ea`. -/
def popEa : Populator := fun _ v => { v with dict := dictSet v.dict "ea" (some 1) }

/-- Populators with one eager entry for the (unloaded) key `ea`. -/
def popsC6 : Populators := { eager := [("ea", popEa)] }

/-- The partial-path processor fixture with that eager populator. -/
def cfgC6 : ProcCfg := instance_processor mapperPlain ctxPlain popsC6 none 0 false none none none

/-- A previous-pass object whose attribute `ea` is currently
unloaded. -/
def stC6 : ObjState := { key := some (0, [some 1]), runid := some 99, unloaded := ["ea"] }

/-- A world holding that object under identity (0, [1]). -/
def sC6 : LoadState := { imap := [((0, [some 1]), 0)], objs := [(0, stC6)], nextId := 1 }

/-- The partial-path run of one row over that world. -/
def runC6 : Except LoadErr (Option ObjId × LoadState) := _instance cfgC6 [some 1] sC6

/-- C6 counterexample: the eager populator for key `ea` would write
the marker if applied, and `ea` is NOT already loaded (it is in the
unloaded set) — so the claim ("applies every eager-populator whose
key is not already loaded") demands it run; but the processor skips
it (the code applies exactly the eager populators whose key is NOT
in the unloaded set, i.e. already loaded), and the final object
carries no marker. -/
theorem C6_partial_first_sighting_cex :
    stC6.unloaded = ["ea"] ∧
    dictGet (applyPop popEa [some 1] (getObj (stateOf runC6) 0)).dict "ea" = some 1 ∧
    exceptOk runC6 = true ∧
    dictGet (getObj (stateOf runC6) 0).dict "ea" = none := by
  refine ⟨rfl, rfl, rfl, rfl⟩

/-- C6 (amended): in the partial-population path, on the first
sighting of the object within the pass the processor computes the
to-load set from the object's currently-unloaded attributes and
caches it in `partials`, applies the quick/expire/new/delayed
buckets filtered to that set (the body of the partial population),
then applies every eager-populator whose key is NOT among the
currently-unloaded attributes (i.e. only keys already loaded), then
dispatches a refresh notification when listeners exist and commits
exactly the to-load set. -/
theorem C6_partial_first_sighting_amended (mapper : Mapper) (ctx : QContext) (pops : Populators)
    (adapter : Option (Nat → Nat)) (path : Nat) (pf : Bool) (olp : Option (List String))
    (pd : Option Nat) (cfg : ProcCfg) (row : Row) (s : LoadState) (oid : ObjId) (st : ObjState)
    (hcfg : cfg = instance_processor mapper ctx pops adapter path pf olp none pd)
    (hps : cfg.polySwitch = none)
    (h1 : s.imap.lookup (rowIdentity cfg row) = some oid)
    (h2 : s.objs.lookup oid = some st)
    (h3 : st.runid ≠ some cfg.runid)
    (h4 : cfg.populateExisting = false)
    (h5 : versionFails cfg st row false = false)
    (h6 : s.partials.lookup oid = none)
    (h7 : ¬(st.unloaded = [] ∧ cfg.pops.eager = [])) :
    ∃ s', _instance cfg row s = .ok (some oid, s') ∧
      s'.partials = setAssoc s.partials oid st.unloaded ∧
      s'.objs = setAssoc s.objs oid
        (cfg.pops.eager.foldl (eagerStep st.unloaded row)
          (populate_partial' cfg row oid st true st.unloaded s.partials).2.1) ∧
      s'.imap = s.imap ∧ s'.nextId = s.nextId ∧
      s'.events = s.events
        ++ (if cfg.refreshEvt then [Event.refreshEvt oid (some st.unloaded)] else [])
        ++ [Event.commitKeys oid st.unloaded] := by
  have h0 : cfg.refreshState = none := by subst hcfg; rfl
  have hb : (st.runid != some cfg.runid) = true := bne_iff_ne.mpr h3
  rw [instance_poly_none cfg row s hps, resolve_found cfg row s oid st h0 h1 h2, hb]
  simp only [Bool.not_true]
  rw [if_neg (by simp [h5])]
  exact instance_populate_partial_first_spec cfg row s oid st false h4 h6 h7

/-- Witness for the amended C6 at the concrete partial-path
fixture. -/
theorem C6_partial_first_sighting_amended_w :
    (sC6.partials.lookup 0 = none ∧ stC6.unloaded = ["ea"]) ∧
    ∃ s', _instance cfgC6 [some 1] sC6 = .ok (some 0, s') ∧
      s'.partials = setAssoc sC6.partials 0 stC6.unloaded ∧
      s'.objs = setAssoc sC6.objs 0
        (cfgC6.pops.eager.foldl (eagerStep stC6.unloaded [some 1])
          (populate_partial' cfgC6 [some 1] 0 stC6 true stC6.unloaded sC6.partials).2.1) ∧
      s'.imap = sC6.imap ∧ s'.nextId = sC6.nextId ∧
      s'.events = sC6.events
        ++ (if cfgC6.refreshEvt then [Event.refreshEvt 0 (some stC6.unloaded)] else [])
        ++ [Event.commitKeys 0 stC6.unloaded] :=
  ⟨⟨rfl, rfl⟩, C6_partial_first_sighting_amended mapperPlain ctxPlain popsC6 none 0 false none none
    cfgC6 [some 1] sC6 0 stC6 rfl rfl rfl rfl (by decide) rfl rfl rfl
    (fun h => absurd h.1 (by decide))⟩

/-- C7: the single-identity load returns the single matched object;
a zero-row result is caught (`NoResultFound`) and returned as null;
a multi-row result propagates `MultipleResultsFound` to the
caller. -/
theorem C7_load_on_ident_one {α : Type} (matching : List α) :
    (matching = [] → load_on_ident matching = .ok none) ∧
    (∀ a : α, matching = [a] → load_on_ident matching = .ok (some a)) ∧
    (2 ≤ matching.length → load_on_ident matching = .error .multipleResultsFound) := by
  refine ⟨?_, ?_, ?_⟩
  · intro h
    subst h
    rfl
  · intro a h
    subst h
    rfl
  · intro h
    cases matching with
    | nil => simp at h
    | cons a t =>
      cases t with
      | nil => simp at h
      | cons b r => rfl

/-- Witness for C7 on a two-element result. -/
theorem C7_load_on_ident_one_w :
    2 ≤ ([(1 : Nat), 2]).length ∧
    load_on_ident [(1 : Nat), 2] = .error LoadErr.multipleResultsFound :=
  ⟨by decide, (C7_load_on_ident_one [(1 : Nat), 2]).2.2 (by decide)⟩

/-- A refresh request for an object whose single-column primary key
value is NULL, on a mapper that does not allow partial primary
keys: per the claim the warn-and-decline guard must fire; the
identity load the code would issue is stubbed to return object 7. -/
def lsaFail : LSAArgs where
  hasSession := true
  stateKey := some (0, [none])
  expired_attributes := []
  pk_attrs := ["id"]
  inherits := false
  concrete := false
  allow_partial_pks := false
  optimized_statement := false
  optimizedLoadResult := none
  identityKeyFromState := (0, [none])
  identLoadResult := some 7

/-- The warn-and-decline guard of the identity-load tail can never
fire: the null test iterates over the two elements of the identity
key pair — the entity class and the primary-key tuple — and neither
element is the Python `None`, whatever the primary-key values
are. -/
theorem lsa_ident_not_warned (a : LSAArgs) (k : IdentKey) :
    (load_scalar_attributes_ident a k).isWarned = false := by
  unfold load_scalar_attributes_ident
  rw [if_neg (by simp [keyElems, PyVal.isNone])]
  split <;> rfl

/-- C8: the claim is that `load_scalar_attributes` warns and
declines (issuing no identity load) for a key that is not fully
populated; on the code, the refresh of an object keyed (C, (None,))
with `allow_partial_pks = False` issues the identity load and
returns its result — and in fact no input whatsoever can reach the
warn-and-decline outcome, because the guard tests the elements of
the key pair (class, tuple) rather than the primary-key values. -/
theorem C8_load_scalar_attributes_guard_dead :
    load_scalar_attributes lsaFail = .done false (some 7) ∧
    (∀ a : LSAArgs, (load_scalar_attributes a).isWarned = false) := by
  refine ⟨rfl, ?_⟩
  intro a
  unfold load_scalar_attributes
  dsimp only
  repeat' split
  all_goals first
    | rfl
    | exact lsa_ident_not_warned a _

/-- Threading the merge loop leaves every session field other than
the identity map unchanged (the merge operation may only write the
identity map). -/
theorem mergeLoop_config (f : Session → ObjId → Except LoadErr (ObjId × IMap))
    (l : List ObjId) : ∀ sess : Session,
    (mergeLoop f sess l).2.config = sess.config ∧
    (mergeLoop f sess l).2.autoflush = sess.autoflush := by
  induction l with
  | nil => intro sess; exact ⟨rfl, rfl⟩
  | cons o rest ih =>
    intro sess
    unfold mergeLoop
    cases hf : f sess o with
    | error e => simp
    | ok p =>
      obtain ⟨o2, m⟩ := p
      dsimp only
      have ih2 := ih { sess with imap := m }
      rcases hr : mergeLoop f { sess with imap := m } rest with ⟨r1, s2⟩
      rw [hr] at ih2
      cases r1 <;> simpa using ih2

/-- A merge loop started on a session with auto-flush already
cleared behaves as if every merge operation saw the auto-flush flag
cleared: auto-flush is suspended for the whole duration. -/
theorem mergeLoop_force (f : Session → ObjId → Except LoadErr (ObjId × IMap))
    (l : List ObjId) : ∀ sess : Session, sess.autoflush = false →
    mergeLoop f sess l = mergeLoop (fun t o => f { t with autoflush := false } o) sess l := by
  induction l with
  | nil => intro sess _; rfl
  | cons o rest ih =>
    intro sess h
    have hsess : { sess with autoflush := false } = sess := by
      cases sess
      simp_all
    unfold mergeLoop
    rw [hsess]
    split
    · rfl
    · rename_i o2 m heq
      rw [ih { sess with imap := m } (by simpa using h)]

/-- C9: `merge_result` restores the session's auto-flush flag to its
original value whether the merge loop completes or fails, alters no
other session configuration, and for the whole duration of the
merge the flag is false (every merge operation observes a session
with auto-flush cleared). -/
theorem C9_merge_result_autoflush (load : Bool) (aflush : IMap → IMap)
    (mergeFn : Session → ObjId → Except LoadErr (ObjId × IMap))
    (objs : List ObjId) (sess : Session) :
    (merge_result load aflush mergeFn objs sess).2.autoflush = sess.autoflush ∧
    (merge_result load aflush mergeFn objs sess).2.config = sess.config ∧
    merge_result load aflush mergeFn objs sess
      = merge_result load aflush (fun t o => mergeFn { t with autoflush := false } o) objs sess := by
  unfold merge_result
  dsimp only
  refine ⟨?_, ?_, ?_⟩
  · cases load <;> rfl
  · cases load with
    | false =>
      have h := (mergeLoop_config mergeFn objs { sess with autoflush := false }).1
      simpa using h
    | true =>
      have h := (mergeLoop_config mergeFn objs
        { { sess with imap := aflush sess.imap } with autoflush := false }).1
      simpa using h
  · rw [mergeLoop_force mergeFn objs _ (by cases load <;> rfl)]

/-- A previous-pass object with nothing unloaded. -/
def stC10 : ObjState := { key := some (0, [some 1]), runid := some 99 }

/-- A world holding that object under identity (0, [1]). -/
def sC10 : LoadState := { imap := [((0, [some 1]), 0)], objs := [(0, stC10)], nextId := 1 }

/-- Witness for C10 at the concrete fixture: the processor returns
the carried-over object and the exact same world. -/
theorem C10_partial_noop_w :
    (sC10.objs.lookup 0 = some stC10 ∧ stC10.runid ≠ some cfgPlain.runid) ∧
    _instance cfgPlain [some 1] sC10 = .ok (some 0, sC10) :=
  ⟨⟨rfl, by decide⟩, C10_partial_noop mapperPlain ctxPlain {} none 0 false none none
    cfgPlain [some 1] sC10 0 stC10 rfl rfl rfl rfl (by decide) rfl rfl rfl rfl rfl⟩

end Loading

